import Mathlib

/-!
Verification of `src/aws-ai/bedrock.py` (a single-shot CLI that sends a prompt
to an AWS Bedrock model and prints the generated completion).

The script is shallowly embedded: decoded JSON values become the inductive
type `Json`; Python dictionary access, subscripting and `str.strip` become
total Lean functions returning `Except PyErr Json` where the Python code can
raise; the provider dispatch table `MODEL_PREFIX_CONFIGURATIONS`, the prefix
matcher `find_model_configuration`, the environment reader
`get_env_variables` and the whole of `main` (including the body of
`invoke_model`) become executable definitions.  The network call and the
filesystem are the only external effects; they enter `main_run` as explicit
parameters (`NetResult`, `clientOk`, `envFileOk`).
-/

set_option autoImplicit false

namespace Bedrock

/-- A decoded JSON value, the result of Python `json.loads`.  Numbers are
modelled as exact rationals. -/
inductive Json where
  | null
  | bool (b : Bool)
  | num (q : Rat)
  | str (s : String)
  | arr (xs : List Json)
  | obj (fields : List (String × Json))

/-- Python exceptions that the embedded fragments can raise. -/
inductive PyErr where
  | indexError
  | keyError
  | typeError
  | attributeError
deriving DecidableEq

/-- Python truthiness (`if x:`) of a decoded JSON value: `None`, `False`,
zero, the empty string, the empty list and the empty dict are falsy. -/
def Json.pyTruthy : Json → Bool
  | .null => false
  | .bool b => b
  | .num q => decide (q ≠ 0)
  | .str s => decide (s ≠ "")
  | .arr [] => false
  | .arr (_ :: _) => true
  | .obj [] => false
  | .obj (_ :: _) => true

/-- Python `d.get(key, default)`: on a dict, the value stored under `key`
or `default`; on any non-dict value it raises `AttributeError`. -/
def Json.pyGet (j : Json) (key : String) (default : Json) : Except PyErr Json :=
  match j with
  | .obj fields =>
    match fields.lookup key with
    | some v => .ok v
    | none => .ok default
  | _ => .error .attributeError

/-- Python subscripting `x[0]`: head of a list (IndexError when empty),
first character of a string (IndexError when empty), KeyError on a dict
(`0` is never a key of a decoded JSON object), TypeError otherwise. -/
def Json.index0 : Json → Except PyErr Json
  | .arr [] => .error .indexError
  | .arr (x :: _) => .ok x
  | .str s =>
    match s.data with
    | [] => .error .indexError
    | c :: _ => .ok (.str (String.mk [c]))
  | .obj _ => .error .keyError
  | _ => .error .typeError

/-- Characters removed by Python `str.strip()` (the ASCII whitespace set). -/
def pyIsSpace (c : Char) : Bool :=
  c == ' ' || c == '\t' || c == '\n' || c == '\r' || c == '\x0b' || c == '\x0c'

/-- Python `s.strip()`: remove leading and trailing whitespace. -/
def pyStrip (s : String) : String :=
  String.mk (((s.data.dropWhile pyIsSpace).reverse.dropWhile pyIsSpace).reverse)

/-- Python `x.strip()` on a decoded JSON value: strips a string, raises
`AttributeError` on anything that is not a string. -/
def Json.pyStripVal : Json → Except PyErr Json
  | .str s => .ok (.str (pyStrip s))
  | _ => .error .attributeError

/-- Python `stop_sequences if stop_sequences else []`: the list itself when
it is truthy (present and non-empty), otherwise the empty list. -/
def stopOrEmpty (stop : Option (List Json)) : List Json :=
  match stop with
  | none => []
  | some [] => []
  | some (x :: xs) => x :: xs

/-- Request builder of the `mistral` table entry
(`config_builder`, bedrock.py lines 16-23). -/
def mistralBuilder (prompt : String) (stop : Option (List Json)) : Json :=
  .obj [("prompt", .str prompt),
        ("max_tokens", .num 256),
        ("stop", .arr (stopOrEmpty stop)),
        ("temperature", .num (7/10)),
        ("top_p", .num (95/100)),
        ("top_k", .num 40)]

/-- Response extractor of the `mistral` table entry
(`response_parser`, bedrock.py line 24): `response_body.get("outputs", "")`. -/
def mistralExtract (body : Json) : Except PyErr Json :=
  body.pyGet "outputs" (.str "")

/-- Request builder of the `amazon` table entry
(`config_builder`, bedrock.py lines 30-38). -/
def amazonBuilder (prompt : String) (stop : Option (List Json)) : Json :=
  .obj [("inputText", .str prompt),
        ("textGenerationConfig",
          .obj [("temperature", .num (6/10)),
                ("topP", .num (95/100)),
                ("maxTokenCount", .num 150),
                ("stopSequences", .arr (stopOrEmpty stop))])]

/-- Response extractor of the `amazon` table entry
(`response_parser`, bedrock.py line 39):
`response_body.get("results", [{}])[0].get("outputText", "")`. -/
def amazonExtract (body : Json) : Except PyErr Json :=
  match body.pyGet "results" (.arr [.obj []]) with
  | .error e => .error e
  | .ok r =>
    match r.index0 with
    | .error e => .error e
    | .ok x => x.pyGet "outputText" (.str "")

/-- Request builder of the `meta` table entry
(`config_builder`, bedrock.py lines 45-50): note it takes the stop-sequence
argument but never uses it. -/
def metaBuilder (prompt : String) (_stop : Option (List Json)) : Json :=
  .obj [("prompt", .str prompt),
        ("max_gen_len", .num 512),
        ("temperature", .num (4/10)),
        ("top_p", .num (9/10))]

/-- Response extractor of the `meta` table entry
(`response_parser`, bedrock.py line 51): `response_body.get("generation", "")`. -/
def metaExtract (body : Json) : Except PyErr Json :=
  body.pyGet "generation" (.str "")

/-- Request builder of the `anthropic` table entry
(`config_builder`, bedrock.py lines 57-64): wraps the prompt in the fixed
Human/Assistant template. -/
def anthropicBuilder (prompt : String) (stop : Option (List Json)) : Json :=
  .obj [("prompt", .str ("\n\nHuman:" ++ prompt ++ "\n\nAssistant:")),
        ("temperature", .num (7/10)),
        ("top_p", .num (9/10)),
        ("top_k", .num 50),
        ("max_tokens_to_sample", .num 200),
        ("stop_sequences", .arr (stopOrEmpty stop))]

/-- Response extractor of the `anthropic` table entry
(`response_parser`, bedrock.py line 65):
`response_body.get("completion", "").strip()`. -/
def anthropicExtract (body : Json) : Except PyErr Json :=
  match body.pyGet "completion" (.str "") with
  | .error e => .error e
  | .ok c => c.pyStripVal

/-- One entry of `MODEL_PREFIX_CONFIGURATIONS`: provider name, regex
pattern strings, request builder, response extractor and API type. -/
structure ModelConfig where
  provider : String
  patterns : List String
  config_builder : String → Option (List Json) → Json
  responseExtract : Json → Except PyErr Json
  api_type : String

/-- The `mistral` entry of the dispatch table (bedrock.py lines 13-26). -/
def mistralConfig : ModelConfig :=
  ⟨"mistral", ["^mistral.*"], mistralBuilder, mistralExtract, "invoke_model"⟩

/-- The `amazon` entry of the dispatch table (bedrock.py lines 27-41). -/
def amazonConfig : ModelConfig :=
  ⟨"amazon", ["^amazon.*"], amazonBuilder, amazonExtract, "invoke_model"⟩

/-- The `meta` entry of the dispatch table (bedrock.py lines 42-53). -/
def metaConfig : ModelConfig :=
  ⟨"meta", ["^meta.*"], metaBuilder, metaExtract, "invoke_model"⟩

/-- The `anthropic` entry of the dispatch table (bedrock.py lines 54-67). -/
def anthropicConfig : ModelConfig :=
  ⟨"anthropic", ["^anthropic.*"], anthropicBuilder, anthropicExtract, "invoke_model"⟩

/-- The provider dispatch table `MODEL_PREFIX_CONFIGURATIONS`
(bedrock.py lines 12-69), in source order. -/
def MODEL_PREFIX_CONFIGURATIONS : List ModelConfig :=
  [mistralConfig, amazonConfig, metaConfig, anthropicConfig]

/-- Boolean test that the character list `p` starts the character list `s`. -/
def startsWithL : List Char → List Char → Bool
  | [], _ => true
  | _ :: _, [] => false
  | a :: ps, b :: ss => a == b && startsWithL ps ss

/-- Python `re.match(pattern, s)` truth value for the patterns that occur in
the dispatch table.  Every pattern there has the shape `^<literal>.*`, which
matches exactly the strings starting with `<literal>`; the embedding strips
the leading `^` and the trailing `.*` and tests for that literal prefix. -/
def reMatch (pattern s : String) : Bool :=
  startsWithL ((pattern.data.drop 1).dropLast.dropLast) s.data

/-- Whether one table entry accepts a model identifier: some pattern of the
entry matches it (inner loop of `find_model_configuration`). -/
def configMatches (c : ModelConfig) (model_id : String) : Bool :=
  c.patterns.any (fun p => reMatch p model_id)

/-- `find_model_configuration` (bedrock.py lines 127-135): scan the table in
order and return the first entry one of whose patterns matches; `none`
when no entry matches. -/
def find_model_configuration (model_id : String) : Option ModelConfig :=
  MODEL_PREFIX_CONFIGURATIONS.find? (fun c => configMatches c model_id)

/-! ### A model of Python `json.loads`

The script decodes two kinds of strings with `json.loads`: the optional
`STOP_SEQUENCES` environment value and the response body.  The parser below
implements the JSON grammar (with the common string escapes); parse failure
models `json.JSONDecodeError`/`ValueError`.  Fuel bounds the recursion; one
unit of fuel is spent only after consuming at least one character, so
`length + 1` units always suffice. -/

/-- JSON inter-token whitespace (`space`, tab, newline, carriage return). -/
def jsonWs (c : Char) : Bool :=
  c == ' ' || c == '\t' || c == '\n' || c == '\r'

/-- Value of a hexadecimal digit, `none` for a non-hex character. -/
def hexVal (c : Char) : Option Nat :=
  if '0' ≤ c ∧ c ≤ '9' then some (c.toNat - '0'.toNat)
  else if 'a' ≤ c ∧ c ≤ 'f' then some (c.toNat - 'a'.toNat + 10)
  else if 'A' ≤ c ∧ c ≤ 'F' then some (c.toNat - 'A'.toNat + 10)
  else none

/-- Single-character JSON string escapes. -/
def escChar : Char → Option Char
  | '"' => some '"'
  | '\\' => some '\\'
  | '/' => some '/'
  | 'b' => some (Char.ofNat 8)
  | 'f' => some (Char.ofNat 12)
  | 'n' => some '\n'
  | 'r' => some '\r'
  | 't' => some '\t'
  | _ => none

/-- Decimal value of a digit list. -/
def digitsToNat (ds : List Char) : Nat :=
  ds.foldl (fun a c => a * 10 + (c.toNat - '0'.toNat)) 0

/-- Parse an optional JSON fraction part (`.` followed by digits),
returning its rational value and the remaining input. -/
def parseFrac : List Char → Option (Rat × List Char)
  | '.' :: r =>
    let fds := r.takeWhile Char.isDigit
    let r2 := r.dropWhile Char.isDigit
    if fds.isEmpty then none
    else some (((digitsToNat fds : Rat) / ((10 : Rat) ^ fds.length)), r2)
  | cs => some (0, cs)

/-- Parse an optional JSON exponent part (`e`/`E`, optional sign, digits),
returning the signed exponent and the remaining input. -/
def parseExp : List Char → Option (Int × List Char)
  | [] => some (0, [])
  | c :: r =>
    if c = 'e' ∨ c = 'E' then
      let sgnr : Int × List Char :=
        match r with
        | '+' :: r2 => (1, r2)
        | '-' :: r2 => (-1, r2)
        | _ => (1, r)
      let eds := sgnr.2.takeWhile Char.isDigit
      let r2 := sgnr.2.dropWhile Char.isDigit
      if eds.isEmpty then none
      else some (sgnr.1 * (digitsToNat eds : Int), r2)
    else some (0, c :: r)

/-- Parse a JSON number (`-? int frac? exp?`, no leading zeros) into an
exact rational. -/
def parseNumber (cs : List Char) : Option (Rat × List Char) :=
  let negr : Bool × List Char :=
    match cs with
    | '-' :: r => (true, r)
    | _ => (false, cs)
  let ds := negr.2.takeWhile Char.isDigit
  let cs2 := negr.2.dropWhile Char.isDigit
  if ds.isEmpty then none
  else if 1 < ds.length ∧ ds.head? = some '0' then none
  else
    match parseFrac cs2 with
    | none => none
    | some (f, cs3) =>
      match parseExp cs3 with
      | none => none
      | some (e, cs4) =>
        let base : Rat := (digitsToNat ds : Rat) + f
        some ((if negr.1 then -base else base) * (10 : Rat) ^ e, cs4)

/-- Parse the body of a JSON string after the opening quote, handling the
escape sequences; raw control characters are rejected as in Python. -/
def parseStringBody : Nat → List Char → Option (List Char × List Char)
  | 0, _ => none
  | _ + 1, [] => none
  | fuel + 1, c :: rest =>
    if c = '"' then some ([], rest)
    else if c = '\\' then
      match rest with
      | [] => none
      | e :: rest2 =>
        if e = 'u' then
          match rest2 with
          | h1 :: h2 :: h3 :: h4 :: rest3 =>
            match hexVal h1, hexVal h2, hexVal h3, hexVal h4 with
            | some a, some b, some c3, some d =>
              match parseStringBody fuel rest3 with
              | some (s, r) => some (Char.ofNat (((a * 16 + b) * 16 + c3) * 16 + d) :: s, r)
              | none => none
            | _, _, _, _ => none
          | _ => none
        else
          match escChar e with
          | some ec =>
            match parseStringBody fuel rest2 with
            | some (s, r) => some (ec :: s, r)
            | none => none
          | none => none
    else if c.toNat < 32 then none
    else
      match parseStringBody fuel rest with
      | some (s, r) => some (c :: s, r)
      | none => none

mutual

/-- Parse one JSON value (leading whitespace allowed), returning it and the
remaining input. -/
def parseValue : Nat → List Char → Option (Json × List Char)
  | 0, _ => none
  | fuel + 1, cs0 =>
    match cs0.dropWhile jsonWs with
    | [] => none
    | 'n' :: 'u' :: 'l' :: 'l' :: r => some (.null, r)
    | 't' :: 'r' :: 'u' :: 'e' :: r => some (.bool true, r)
    | 'f' :: 'a' :: 'l' :: 's' :: 'e' :: r => some (.bool false, r)
    | '"' :: rest =>
      match parseStringBody (rest.length + 1) rest with
      | some (s, r) => some (.str (String.mk s), r)
      | none => none
    | '[' :: rest =>
      match rest.dropWhile jsonWs with
      | ']' :: r => some (.arr [], r)
      | rest2 =>
        match parseElems fuel rest2 with
        | some (xs, r) => some (.arr xs, r)
        | none => none
    | '\x7b' :: rest =>
      match rest.dropWhile jsonWs with
      | '\x7d' :: r => some (.obj [], r)
      | rest2 =>
        match parseMembers fuel rest2 with
        | some (fs, r) => some (.obj fs, r)
        | none => none
    | cs =>
      match parseNumber cs with
      | some (q, r) => some (.num q, r)
      | none => none

/-- Parse a non-empty comma-separated list of JSON values up to the closing
bracket. -/
def parseElems : Nat → List Char → Option (List Json × List Char)
  | 0, _ => none
  | fuel + 1, cs =>
    match parseValue fuel cs with
    | none => none
    | some (v, r) =>
      match r.dropWhile jsonWs with
      | ',' :: r2 =>
        match parseElems fuel r2 with
        | some (vs, r3) => some (v :: vs, r3)
        | none => none
      | ']' :: r2 => some ([v], r2)
      | _ => none

/-- Parse a non-empty comma-separated list of JSON object members up to the
closing brace. -/
def parseMembers : Nat → List Char → Option (List (String × Json) × List Char)
  | 0, _ => none
  | fuel + 1, cs =>
    match cs.dropWhile jsonWs with
    | '"' :: rest =>
      match parseStringBody (rest.length + 1) rest with
      | none => none
      | some (k, r) =>
        match r.dropWhile jsonWs with
        | ':' :: r2 =>
          match parseValue fuel r2 with
          | none => none
          | some (v, r3) =>
            match r3.dropWhile jsonWs with
            | ',' :: r4 =>
              match parseMembers fuel r4 with
              | some (ms, r5) => some ((String.mk k, v) :: ms, r5)
              | none => none
            | '\x7d' :: r4 => some ([(String.mk k, v)], r4)
            | _ => none
        | _ => none
    | _ => none

end

/-- Python `json.loads`: parse one JSON document with nothing but
whitespace after it.  (Python additionally accepts the non-standard tokens
`NaN`/`Infinity`; no behaviour verified below depends on them, since a
non-list decode and a decode failure are handled identically by the
script.) -/
def jsonParse (s : String) : Option Json :=
  match parseValue (s.data.length + 1) s.data with
  | some (v, rest) => if rest.dropWhile jsonWs = [] then some v else none
  | none => none

/-! ### Environment reading and the `main` pipeline -/

/-- The error kinds with which `get_env_variables` calls `sys.exit(1)`. -/
inductive ConfigErr where
  | missingRegion
  | missingModelId
  | invalidStopSequences
deriving DecidableEq

/-- Python truthiness of an `os.getenv` result: `None` and the empty
string are falsy. -/
def pyTruthyEnv : Option String → Bool
  | none => false
  | some s => decide (s ≠ "")

/-- `get_env_variables` (bedrock.py lines 104-125): read `AWS_REGION`,
`MODEL_ID` and `STOP_SEQUENCES` (defaulting to `"[]"`); exit on a falsy
region or model id, or when the stop-sequence value fails to decode as a
JSON list. -/
def get_env_variables (env : String → Option String) :
    Except ConfigErr (String × String × List Json) :=
  let region := env "AWS_REGION"
  let model_id := env "MODEL_ID"
  let stopRaw := (env "STOP_SEQUENCES").getD "[]"
  if pyTruthyEnv region = false then .error .missingRegion
  else if pyTruthyEnv model_id = false then .error .missingModelId
  else
    match jsonParse stopRaw with
    | some (.arr xs) => .ok (region.getD "", model_id.getD "", xs)
    | some _ => .error .invalidStopSequences
    | none => .error .invalidStopSequences

/-- Outcome of the one `client.invoke_model` network call: a
`BotoCoreError`/`ClientError`, or a response whose body reads as `body`. -/
inductive NetResult where
  | fail
  | ok (body : String)

/-- Observable trace of one process run: the exit code, whether the client
was constructed, whether `find_model_configuration` was reached, whether
`client.invoke_model` was called, the prompt and request body passed to the
call, and the generation returned to `main` (None is `none`). -/
structure RunResult where
  exitCode : Nat
  clientCreated : Bool
  profileResolved : Bool
  networkCalled : Bool
  sentPrompt : Option String
  sentBody : Option Json
  generation : Option Json

/-- The request body that `invoke_model` (bedrock.py lines 137-151) builds
before the network call: the builder is applied to the prompt and the stop
sequences for `api_type == "invoke_model"`, to the prompt alone for
`"messages"`, and any other api type is `sys.exit(1)` (`none`). -/
def buildInvokeConfig (cfg : ModelConfig) (prompt_text : String)
    (stop : List Json) : Option Json :=
  if cfg.api_type = "invoke_model" then some (cfg.config_builder prompt_text (some stop))
  else if cfg.api_type = "messages" then some (cfg.config_builder prompt_text none)
  else none

/-- `main` (bedrock.py lines 216-263) together with the inlined body of
`invoke_model`: load the `.env` file (`envFileOk` is whether
`load_environment` succeeds), read the environment, strip and validate the
prompt, resolve the profile, create the client (`clientOk` is whether
`boto3.client` succeeds), perform the network call, decode the body, run
the profile's response extractor (an exception from it is caught by the
bare `except Exception` and exits 1), and print the generation when it is
truthy.  An empty generation only logs an error, so the run still ends
with exit code 0. -/
def main_run (envFileOk : Bool) (env : String → Option String)
    (promptArg : String) (clientOk : Bool) (net : NetResult) : RunResult :=
  if envFileOk = false then
    ⟨1, false, false, false, none, none, none⟩
  else
    match get_env_variables env with
    | .error _ => ⟨1, false, false, false, none, none, none⟩
    | .ok (_region, model_id, stop) =>
      let prompt_text := pyStrip promptArg
      if prompt_text = "" then ⟨1, false, false, false, none, none, none⟩
      else
        match find_model_configuration model_id with
        | none => ⟨1, false, true, false, none, none, none⟩
        | some cfg =>
          if clientOk = false then ⟨1, false, true, false, none, none, none⟩
          else
            match buildInvokeConfig cfg prompt_text stop with
            | none => ⟨1, true, true, false, none, none, none⟩
            | some config =>
              match net with
              | .fail => ⟨1, true, true, true, some prompt_text, some config, none⟩
              | .ok body =>
                match jsonParse body with
                | none => ⟨1, true, true, true, some prompt_text, some config, none⟩
                | some rb =>
                  match cfg.responseExtract rb with
                  | .error _ => ⟨1, true, true, true, some prompt_text, some config, none⟩
                  | .ok gen =>
                    if gen.pyTruthy then
                      ⟨0, true, true, true, some prompt_text, some config, some gen⟩
                    else
                      ⟨0, true, true, true, some prompt_text, some config, none⟩

/-! ### Observers and sample environments used in the statements -/

/-- Field access observer used in statements: the value stored under `key`
in a JSON object, `none` for a missing key or a non-object. -/
def Json.fieldVal : Json → String → Option Json
  | .obj fs, key => fs.lookup key
  | _, _ => none

/-- A well-formed environment: region set, model id in the `amazon` family,
no stop sequences. -/
def sampleEnv : String → Option String := fun k =>
  if k = "AWS_REGION" then some "us-east-1"
  else if k = "MODEL_ID" then some "amazon.titan-text-express-v1"
  else none

/-- An environment whose `STOP_SEQUENCES` value is not JSON. -/
def sampleEnvBadStop : String → Option String := fun k =>
  if k = "AWS_REGION" then some "us-east-1"
  else if k = "MODEL_ID" then some "amazon.titan-text-express-v1"
  else if k = "STOP_SEQUENCES" then some "not-json"
  else none

/-- An environment with no `MODEL_ID` variable. -/
def sampleEnvNoModel : String → Option String := fun k =>
  if k = "AWS_REGION" then some "us-east-1" else none

/-- An environment whose model identifier matches no table entry. -/
def sampleEnvUnknownModel : String → Option String := fun k =>
  if k = "AWS_REGION" then some "us-east-1"
  else if k = "MODEL_ID" then some "gpt-4" else none

/-! ### Helper lemmas -/

/-- Two prefixes of the same character list are comparable. -/
theorem startsWithL_total (s p1 p2 : List Char)
    (h1 : startsWithL p1 s = true) (h2 : startsWithL p2 s = true) :
    startsWithL p1 p2 = true ∨ startsWithL p2 p1 = true := by
  induction s generalizing p1 p2 with
  | nil =>
    cases p1 with
    | nil => exact Or.inl rfl
    | cons a ps => simp [startsWithL] at h1
  | cons c ss ih =>
    cases p1 with
    | nil => exact Or.inl rfl
    | cons a ps =>
      cases p2 with
      | nil => exact Or.inr rfl
      | cons b qs =>
        simp only [startsWithL, Bool.and_eq_true, beq_iff_eq] at h1 h2 ⊢
        obtain ⟨ha, h1t⟩ := h1
        obtain ⟨hb, h2t⟩ := h2
        subst ha
        subst hb
        rcases ih ps qs h1t h2t with h | h
        · exact Or.inl ⟨rfl, h⟩
        · exact Or.inr ⟨rfl, h⟩

/-- Prefixes that are incompatible with each other cannot both start the
same character list. -/
theorem startsWithL_excl (p1 p2 s : List Char)
    (h12 : startsWithL p1 p2 = false) (h21 : startsWithL p2 p1 = false)
    (h1 : startsWithL p1 s = true) : startsWithL p2 s = false := by
  cases h2 : startsWithL p2 s
  · rfl
  · rcases startsWithL_total s p1 p2 h1 h2 with hc | hc
    · rw [h12] at hc
      exact absurd hc (by simp)
    · rw [h21] at hc
      exact absurd hc (by simp)

/-- The `mistral` entry accepts exactly the identifiers starting with
`mistral`. -/
theorem configMatches_mistral (m : String) :
    configMatches mistralConfig m = startsWithL "mistral".data m.data := by
  show (reMatch "^mistral.*" m || false) = _
  rw [Bool.or_false]
  rfl

/-- The `amazon` entry accepts exactly the identifiers starting with
`amazon`. -/
theorem configMatches_amazon (m : String) :
    configMatches amazonConfig m = startsWithL "amazon".data m.data := by
  show (reMatch "^amazon.*" m || false) = _
  rw [Bool.or_false]
  rfl

/-- The `meta` entry accepts exactly the identifiers starting with
`meta`. -/
theorem configMatches_meta (m : String) :
    configMatches metaConfig m = startsWithL "meta".data m.data := by
  show (reMatch "^meta.*" m || false) = _
  rw [Bool.or_false]
  rfl

/-- The `anthropic` entry accepts exactly the identifiers starting with
`anthropic`. -/
theorem configMatches_anthropic (m : String) :
    configMatches anthropicConfig m = startsWithL "anthropic".data m.data := by
  show (reMatch "^anthropic.*" m || false) = _
  rw [Bool.or_false]
  rfl

/-- Every entry of the dispatch table uses the `invoke_model` API. -/
theorem api_type_invoke (c : ModelConfig)
    (hc : c ∈ MODEL_PREFIX_CONFIGURATIONS) : c.api_type = "invoke_model" := by
  simp only [ MODEL_PREFIX_CONFIGURATIONS, List.mem_cons, List.not_mem_nil, or_false] at hc
  rcases hc with rfl | rfl | rfl | rfl <;> rfl

/-- A truthy `os.getenv` result is a non-empty string. -/
theorem pyTruthyEnv_elim (o : Option String) (h : ¬ pyTruthyEnv o = false) :
    ∃ s, o = some s ∧ s ≠ "" := by
  cases o with
  | none => exact absurd rfl h
  | some s =>
    refine ⟨s, rfl, ?_⟩
    simpa [pyTruthyEnv] using h

/-- Elimination for a successful `get_env_variables`: the region and model
id come from the environment, are non-empty, and the stop-sequence value
decoded as a JSON list. -/
theorem get_env_ok_elim (env : String → Option String) (r mid : String)
    (st : List Json) (h : get_env_variables env = .ok (r, mid, st)) :
    env "AWS_REGION" = some r ∧ r ≠ "" ∧ env "MODEL_ID" = some mid ∧ mid ≠ "" ∧
    jsonParse ((env "STOP_SEQUENCES").getD "[]") = some (.arr st) := by
  simp only [get_env_variables] at h
  by_cases h1 : pyTruthyEnv (env "AWS_REGION") = false
  · rw [if_pos h1] at h
    exact absurd h (by simp)
  · rw [if_neg h1] at h
    by_cases h2 : pyTruthyEnv (env "MODEL_ID") = false
    · rw [if_pos h2] at h
      exact absurd h (by simp)
    · rw [if_neg h2] at h
      rcases hjp : jsonParse ((env "STOP_SEQUENCES").getD "[]") with _ | j
      · rw [hjp] at h
        exact absurd h (by simp)
      · rw [hjp] at h
        cases j with
        | arr xs =>
          simp only [Except.ok.injEq, Prod.mk.injEq] at h
          obtain ⟨hr, hm, hs⟩ := h
          obtain ⟨rs, hrs, hrne⟩ := pyTruthyEnv_elim _ h1
          obtain ⟨ms, hms, hmne⟩ := pyTruthyEnv_elim _ h2
          rw [hrs] at hr
          rw [hms] at hm
          simp only [Option.getD_some] at hr hm
          subst hr
          subst hm
          subst hs
          exact ⟨hrs, hrne, hms, hmne, rfl⟩
        | null => exact absurd h (by simp)
        | bool b => exact absurd h (by simp)
        | num q => exact absurd h (by simp)
        | str s => exact absurd h (by simp)
        | obj fs => exact absurd h (by simp)

/-- Runs that fail before profile resolution (no `.env` file, a
configuration error, or a blank prompt) exit 1 having done nothing. -/
theorem main_run_early (envFileOk : Bool) (env : String → Option String)
    (promptArg : String) (clientOk : Bool) (net : NetResult)
    (h : envFileOk = false ∨ (∃ e, get_env_variables env = .error e) ∨
      pyStrip promptArg = "") :
    main_run envFileOk env promptArg clientOk net =
      ⟨1, false, false, false, none, none, none⟩ := by
  unfold main_run
  rcases h with h | ⟨e, h⟩ | h
  · simp [h]
  · cases envFileOk
    · simp
    · simp [h]
  · cases envFileOk
    · simp
    · rcases hge : get_env_variables env with e | t
      · simp
      · obtain ⟨r, mid, st⟩ := t
        simp [h]

/-! ### The claims -/

/-- C5: for every prompt and stop-sequence list, the `amazon` request body
nests temperature, topP, maxTokenCount and stopSequences under a
`textGenerationConfig` field, and the `anthropic` request body wraps the
prompt as `"\n\nHuman:" + prompt + "\n\nAssistant:"`. -/
theorem claim_C5 (prompt : String) (stop : Option (List Json)) :
    (amazonConfig.config_builder prompt stop).fieldVal "textGenerationConfig" =
      some (Json.obj [("temperature", Json.num (6/10)),
                      ("topP", Json.num (95/100)),
                      ("maxTokenCount", Json.num 150),
                      ("stopSequences", Json.arr (stopOrEmpty stop))])
    ∧ (anthropicConfig.config_builder prompt stop).fieldVal "prompt" =
      some (Json.str ("\n\nHuman:" ++ prompt ++ "\n\nAssistant:")) :=
  ⟨rfl, rfl⟩

/-- C6: for every provider's request builder and all prompts and
stop-sequence lists, the sampling and length-limit parameters of the built
body are the same fixed constants, independent of every input. -/
theorem claim_C6 (prompt : String) (stop : Option (List Json)) :
    ((mistralConfig.config_builder prompt stop).fieldVal "temperature" =
        some (Json.num (7/10))
      ∧ (mistralConfig.config_builder prompt stop).fieldVal "top_p" =
        some (Json.num (95/100))
      ∧ (mistralConfig.config_builder prompt stop).fieldVal "top_k" =
        some (Json.num 40)
      ∧ (mistralConfig.config_builder prompt stop).fieldVal "max_tokens" =
        some (Json.num 256))
    ∧ (((amazonConfig.config_builder prompt stop).fieldVal
          "textGenerationConfig").bind (fun j => j.fieldVal "temperature") =
        some (Json.num (6/10))
      ∧ ((amazonConfig.config_builder prompt stop).fieldVal
          "textGenerationConfig").bind (fun j => j.fieldVal "topP") =
        some (Json.num (95/100))
      ∧ ((amazonConfig.config_builder prompt stop).fieldVal
          "textGenerationConfig").bind (fun j => j.fieldVal "maxTokenCount") =
        some (Json.num 150))
    ∧ ((metaConfig.config_builder prompt stop).fieldVal "temperature" =
        some (Json.num (4/10))
      ∧ (metaConfig.config_builder prompt stop).fieldVal "top_p" =
        some (Json.num (9/10))
      ∧ (metaConfig.config_builder prompt stop).fieldVal "max_gen_len" =
        some (Json.num 512))
    ∧ ((anthropicConfig.config_builder prompt stop).fieldVal "temperature" =
        some (Json.num (7/10))
      ∧ (anthropicConfig.config_builder prompt stop).fieldVal "top_p" =
        some (Json.num (9/10))
      ∧ (anthropicConfig.config_builder prompt stop).fieldVal "top_k" =
        some (Json.num 50)
      ∧ (anthropicConfig.config_builder prompt stop).fieldVal
          "max_tokens_to_sample" = some (Json.num 200)) :=
  ⟨⟨rfl, rfl, rfl, rfl⟩, ⟨rfl, rfl, rfl⟩, ⟨rfl, rfl, rfl⟩, ⟨rfl, rfl, rfl, rfl⟩⟩

/-- C9: the `meta` request builder ignores stop sequences entirely — for
every prompt, any two stop-sequence arguments give identical bodies, those
bodies contain no stop-sequence field, and yet the dispatch path hands the
stop-sequence list to the builder. -/
theorem claim_C9 (prompt : String) (s1 s2 : Option (List Json)) :
    metaConfig.config_builder prompt s1 = metaConfig.config_builder prompt s2
    ∧ (metaConfig.config_builder prompt s1).fieldVal "stop" = none
    ∧ (metaConfig.config_builder prompt s1).fieldVal "stop_sequences" = none
    ∧ (metaConfig.config_builder prompt s1).fieldVal "stopSequences" = none
    ∧ ∀ stopList : List Json,
        buildInvokeConfig metaConfig prompt stopList =
          some (metaConfig.config_builder prompt (some stopList)) :=
  ⟨rfl, rfl, rfl, rfl, fun _ => rfl⟩

/-- C2 counterexample: on the decoded response body `{"results": []}` the
`amazon` response extractor raises `IndexError` instead of returning a
string — the extraction is not total over decoded JSON bodies.  (Mapping
over the whole table shows the other three extractors return `""` on this
body while the `amazon` entry raises.) -/
theorem claim_C2_counterexample :
    MODEL_PREFIX_CONFIGURATIONS.map
        (fun c => c.responseExtract (Json.obj [("results", Json.arr [])])) =
      [Except.ok (Json.str ""), Except.error PyErr.indexError,
       Except.ok (Json.str ""), Except.ok (Json.str "")] := rfl

/-- C2 (amended): for every profile in the dispatch table and every decoded
JSON object body from which the provider's expected field is absent, the
response extraction returns the empty string; on bodies of other shapes the
extraction may raise or return a non-string value. -/
theorem claim_C2 (fields : List (String × Json)) :
    (fields.lookup "outputs" = none →
      mistralConfig.responseExtract (Json.obj fields) = .ok (Json.str ""))
    ∧ (fields.lookup "results" = none →
      amazonConfig.responseExtract (Json.obj fields) = .ok (Json.str ""))
    ∧ (fields.lookup "generation" = none →
      metaConfig.responseExtract (Json.obj fields) = .ok (Json.str ""))
    ∧ (fields.lookup "completion" = none →
      anthropicConfig.responseExtract (Json.obj fields) = .ok (Json.str "")) := by
  refine ⟨fun h => ?_, fun h => ?_, fun h => ?_, fun h => ?_⟩
  · show mistralExtract (Json.obj fields) = _
    simp [mistralExtract, Json.pyGet, h]
  · show amazonExtract (Json.obj fields) = _
    simp [amazonExtract, Json.pyGet, h, Json.index0]
  · show metaExtract (Json.obj fields) = _
    simp [metaExtract, Json.pyGet, h]
  · show anthropicExtract (Json.obj fields) = _
    simp [anthropicExtract, Json.pyGet, h, Json.pyStripVal, pyStrip]

/-- Witness for C2 at the empty object body. -/
theorem claim_C2_witness :
    mistralConfig.responseExtract (Json.obj []) = .ok (Json.str "")
    ∧ amazonConfig.responseExtract (Json.obj []) = .ok (Json.str "")
    ∧ metaConfig.responseExtract (Json.obj []) = .ok (Json.str "")
    ∧ anthropicConfig.responseExtract (Json.obj []) = .ok (Json.str "") :=
  ⟨(claim_C2 []).1 rfl, (claim_C2 []).2.1 rfl,
   (claim_C2 []).2.2.1 rfl, (claim_C2 []).2.2.2 rfl⟩

/-- C3: profile resolution scans the table in order and returns the first
match; each supported prefix (`mistral`, `amazon`, `meta`, `anthropic`)
resolves to its profile; an identifier matching no pattern resolves to
`none`, and a run whose `MODEL_ID` is such an identifier exits 1 without a
network call. -/
theorem claim_C3 (m : String) :
    find_model_configuration m =
      MODEL_PREFIX_CONFIGURATIONS.find? (fun c => configMatches c m)
    ∧ (startsWithL "mistral".data m.data = true →
        find_model_configuration m = some mistralConfig)
    ∧ (startsWithL "amazon".data m.data = true →
        find_model_configuration m = some amazonConfig)
    ∧ (startsWithL "meta".data m.data = true →
        find_model_configuration m = some metaConfig)
    ∧ (startsWithL "anthropic".data m.data = true →
        find_model_configuration m = some anthropicConfig)
    ∧ ((∀ c ∈ MODEL_PREFIX_CONFIGURATIONS, configMatches c m = false) →
        find_model_configuration m = none)
    ∧ ∀ (envFileOk : Bool) (env : String → Option String) (promptArg : String)
        (clientOk : Bool) (net : NetResult),
        env "MODEL_ID" = some m →
        find_model_configuration m = none →
        (main_run envFileOk env promptArg clientOk net).exitCode = 1 ∧
        (main_run envFileOk env promptArg clientOk net).networkCalled = false := by
  refine ⟨rfl, fun h => ?_, fun h => ?_, fun h => ?_, fun h => ?_, fun h => ?_, ?_⟩
  · have hm : configMatches mistralConfig m = true := by
      rw [configMatches_mistral]; exact h
    simp [find_model_configuration, MODEL_PREFIX_CONFIGURATIONS, List.find?, hm]
  · have h1 : configMatches mistralConfig m = false := by
      rw [configMatches_mistral]
      exact startsWithL_excl "amazon".data "mistral".data m.data
        (by decide) (by decide) h
    have h2 : configMatches amazonConfig m = true := by
      rw [configMatches_amazon]; exact h
    simp [find_model_configuration, MODEL_PREFIX_CONFIGURATIONS, List.find?, h1, h2]
  · have h1 : configMatches mistralConfig m = false := by
      rw [configMatches_mistral]
      exact startsWithL_excl "meta".data "mistral".data m.data
        (by decide) (by decide) h
    have h2 : configMatches amazonConfig m = false := by
      rw [configMatches_amazon]
      exact startsWithL_excl "meta".data "amazon".data m.data
        (by decide) (by decide) h
    have h3 : configMatches metaConfig m = true := by
      rw [configMatches_meta]; exact h
    simp [find_model_configuration, MODEL_PREFIX_CONFIGURATIONS, List.find?,
      h1, h2, h3]
  · have h1 : configMatches mistralConfig m = false := by
      rw [configMatches_mistral]
      exact startsWithL_excl "anthropic".data "mistral".data m.data
        (by decide) (by decide) h
    have h2 : configMatches amazonConfig m = false := by
      rw [configMatches_amazon]
      exact startsWithL_excl "anthropic".data "amazon".data m.data
        (by decide) (by decide) h
    have h3 : configMatches metaConfig m = false := by
      rw [configMatches_meta]
      exact startsWithL_excl "anthropic".data "meta".data m.data
        (by decide) (by decide) h
    have h4 : configMatches anthropicConfig m = true := by
      rw [configMatches_anthropic]; exact h
    simp [find_model_configuration, MODEL_PREFIX_CONFIGURATIONS, List.find?,
      h1, h2, h3, h4]
  · apply List.find?_eq_none.mpr
    intro c hc
    simp [h c hc]
  · intro envFileOk env promptArg clientOk net henv hfind
    rcases hge : get_env_variables env with e | t
    · rw [main_run_early envFileOk env promptArg clientOk net
        (Or.inr (Or.inl ⟨e, hge⟩))]
      exact ⟨rfl, rfl⟩
    · obtain ⟨r, mid, st⟩ := t
      have hmid : mid = m := by
        have h5 := (get_env_ok_elim env r mid st hge).2.2.1
        rw [henv] at h5
        exact (Option.some.injEq _ _ ▸ h5).symm
      subst hmid
      cases envFileOk with
      | false =>
        rw [main_run_early false env promptArg clientOk net (Or.inl rfl)]
        exact ⟨rfl, rfl⟩
      | true =>
        by_cases hp : pyStrip promptArg = ""
        · rw [main_run_early true env promptArg clientOk net
            (Or.inr (Or.inr hp))]
          exact ⟨rfl, rfl⟩
        · unfold main_run
          simp [hge, hp, hfind]

/-- Witness for C3 at one identifier per provider family, one unsupported
identifier, and one full run with the unsupported identifier. -/
theorem claim_C3_witness :
    find_model_configuration "mistral-7b-instruct" = some mistralConfig
    ∧ find_model_configuration "amazon.titan-text-express-v1" = some amazonConfig
    ∧ find_model_configuration "meta.llama3-8b" = some metaConfig
    ∧ find_model_configuration "anthropic.claude-v2" = some anthropicConfig
    ∧ find_model_configuration "gpt-4" = none
    ∧ (main_run true sampleEnvUnknownModel "hello" true NetResult.fail).exitCode = 1
    ∧ (main_run true sampleEnvUnknownModel "hello" true
        NetResult.fail).networkCalled = false := by
  refine ⟨(claim_C3 "mistral-7b-instruct").2.1 (by decide),
    (claim_C3 "amazon.titan-text-express-v1").2.2.1 (by decide),
    (claim_C3 "meta.llama3-8b").2.2.2.1 (by decide),
    (claim_C3 "anthropic.claude-v2").2.2.2.2.1 (by decide),
    rfl, ?_, ?_⟩
  · exact ((claim_C3 "gpt-4").2.2.2.2.2.2 true sampleEnvUnknownModel "hello"
      true NetResult.fail rfl rfl).1
  · exact ((claim_C3 "gpt-4").2.2.2.2.2.2 true sampleEnvUnknownModel "hello"
      true NetResult.fail rfl rfl).2

/-- C4: whenever profile resolution succeeds, the returned profile matches
the identifier and is the only matching entry of the table — the four
prefix patterns are pairwise disjoint. -/
theorem claim_C4 (m : String) (cfg : ModelConfig)
    (h : find_model_configuration m = some cfg) :
    configMatches cfg m = true ∧
    MODEL_PREFIX_CONFIGURATIONS.countP (fun c => configMatches c m) = 1 := by
  refine ⟨by simpa using List.find?_some h, ?_⟩
  by_cases b1 : startsWithL "mistral".data m.data = true
  · have f2 : startsWithL "amazon".data m.data = false :=
      startsWithL_excl _ _ _ (by decide) (by decide) b1
    have f3 : startsWithL "meta".data m.data = false :=
      startsWithL_excl _ _ _ (by decide) (by decide) b1
    have f4 : startsWithL "anthropic".data m.data = false :=
      startsWithL_excl _ _ _ (by decide) (by decide) b1
    simp [ MODEL_PREFIX_CONFIGURATIONS, List.countP_cons, configMatches_mistral,
      configMatches_amazon, configMatches_meta, configMatches_anthropic,
      b1, f2, f3, f4]
  · rw [Bool.not_eq_true] at b1
    by_cases b2 : startsWithL "amazon".data m.data = true
    · have f3 : startsWithL "meta".data m.data = false :=
        startsWithL_excl _ _ _ (by decide) (by decide) b2
      have f4 : startsWithL "anthropic".data m.data = false :=
        startsWithL_excl _ _ _ (by decide) (by decide) b2
      simp [ MODEL_PREFIX_CONFIGURATIONS, List.countP_cons, configMatches_mistral,
        configMatches_amazon, configMatches_meta, configMatches_anthropic,
        b1, b2, f3, f4]
    · rw [Bool.not_eq_true] at b2
      by_cases b3 : startsWithL "meta".data m.data = true
      · have f4 : startsWithL "anthropic".data m.data = false :=
          startsWithL_excl _ _ _ (by decide) (by decide) b3
        simp [ MODEL_PREFIX_CONFIGURATIONS, List.countP_cons, configMatches_mistral,
          configMatches_amazon, configMatches_meta, configMatches_anthropic,
          b1, b2, b3, f4]
      · rw [Bool.not_eq_true] at b3
        by_cases b4 : startsWithL "anthropic".data m.data = true
        · simp [ MODEL_PREFIX_CONFIGURATIONS, List.countP_cons,
            configMatches_mistral, configMatches_amazon, configMatches_meta,
            configMatches_anthropic, b1, b2, b3, b4]
        · rw [Bool.not_eq_true] at b4
          have hnone : find_model_configuration m = none := by
            simp [find_model_configuration, MODEL_PREFIX_CONFIGURATIONS,
              List.find?, configMatches_mistral, configMatches_amazon,
              configMatches_meta, configMatches_anthropic, b1, b2, b3, b4]
          rw [hnone] at h
          exact absurd h (by simp)

/-- Witness for C4 at an identifier of the `amazon` family. -/
theorem claim_C4_witness :
    configMatches amazonConfig "amazon.titan-text-express-v1" = true ∧
    MODEL_PREFIX_CONFIGURATIONS.countP
      (fun c => configMatches c "amazon.titan-text-express-v1") = 1 :=
  claim_C4 "amazon.titan-text-express-v1" amazonConfig rfl

/-- C7: when `STOP_SEQUENCES` is set to a string that does not decode as a
JSON list (such as `"not-json"`), and region and model id are present,
configuration loading fails with the invalid-stop-sequences error and every
such run exits 1 with no network call. -/
theorem claim_C7 (env : String → Option String) (s : String)
    (hset : env "STOP_SEQUENCES" = some s)
    (hbad : ∀ xs : List Json, jsonParse s ≠ some (Json.arr xs))
    (hr : pyTruthyEnv (env "AWS_REGION") = true)
    (hm : pyTruthyEnv (env "MODEL_ID") = true) :
    get_env_variables env = .error .invalidStopSequences
    ∧ ∀ (envFileOk : Bool) (promptArg : String) (clientOk : Bool)
        (net : NetResult),
        (main_run envFileOk env promptArg clientOk net).exitCode = 1
        ∧ (main_run envFileOk env promptArg clientOk net).networkCalled = false := by
  have hge : get_env_variables env = .error .invalidStopSequences := by
    simp only [get_env_variables, hset, Option.getD_some]
    have h1 : ¬ pyTruthyEnv (env "AWS_REGION") = false := by
      rw [hr]; decide
    have h2 : ¬ pyTruthyEnv (env "MODEL_ID") = false := by
      rw [hm]; decide
    rw [if_neg h1, if_neg h2]
    rcases hjp : jsonParse s with _ | j
    · rfl
    · cases j with
      | arr xs => exact absurd hjp (hbad xs)
      | null => rfl
      | bool b => rfl
      | num q => rfl
      | str t => rfl
      | obj fs => rfl
  refine ⟨hge, fun envFileOk promptArg clientOk net => ?_⟩
  rw [main_run_early envFileOk env promptArg clientOk net
    (Or.inr (Or.inl ⟨.invalidStopSequences, hge⟩))]
  exact ⟨rfl, rfl⟩

/-- Witness for C7 at the environment whose stop-sequence value is the
string `not-json`. -/
theorem claim_C7_witness :
    get_env_variables sampleEnvBadStop = .error .invalidStopSequences
    ∧ (main_run true sampleEnvBadStop "hello" true NetResult.fail).exitCode = 1
    ∧ (main_run true sampleEnvBadStop "hello" true
        NetResult.fail).networkCalled = false := by
  have h := claim_C7 sampleEnvBadStop "not-json" rfl
    (fun xs hx => Option.noConfusion
      ((rfl : jsonParse "not-json" = none).symm.trans hx)) rfl rfl
  exact ⟨h.1, h.2 true "hello" true NetResult.fail⟩

/-- C8: with no `MODEL_ID` in the environment, every run exits 1 without
creating a client and without a network call. -/
theorem claim_C8 (env : String → Option String) (h : env "MODEL_ID" = none) :
    ∀ (envFileOk : Bool) (promptArg : String) (clientOk : Bool)
      (net : NetResult),
      (main_run envFileOk env promptArg clientOk net).exitCode = 1
      ∧ (main_run envFileOk env promptArg clientOk net).clientCreated = false
      ∧ (main_run envFileOk env promptArg clientOk net).networkCalled = false := by
  have hge : ∃ e, get_env_variables env = .error e := by
    simp only [get_env_variables, h]
    by_cases h1 : pyTruthyEnv (env "AWS_REGION") = false
    · exact ⟨.missingRegion, by rw [if_pos h1]⟩
    · exact ⟨.missingModelId, by rw [if_neg h1]; rfl⟩
  intro envFileOk promptArg clientOk net
  obtain ⟨e, hge⟩ := hge
  rw [main_run_early envFileOk env promptArg clientOk net
    (Or.inr (Or.inl ⟨e, hge⟩))]
  exact ⟨rfl, rfl, rfl⟩

/-- Witness for C8 at an environment that only sets `AWS_REGION`. -/
theorem claim_C8_witness :
    (main_run true sampleEnvNoModel "hello" true NetResult.fail).exitCode = 1
    ∧ (main_run true sampleEnvNoModel "hello" true
        NetResult.fail).clientCreated = false
    ∧ (main_run true sampleEnvNoModel "hello" true
        NetResult.fail).networkCalled = false :=
  claim_C8 sampleEnvNoModel rfl true "hello" true NetResult.fail

/-- C10: a prompt argument consisting only of whitespace (or empty) makes
every run exit 1 before profile resolution and before any network call;
and whenever a prompt is sent to the model it is exactly the argument with
leading and trailing whitespace stripped. -/
theorem claim_C10 (promptArg : String) :
    (promptArg.data.all pyIsSpace = true →
      ∀ (envFileOk : Bool) (env : String → Option String) (clientOk : Bool)
        (net : NetResult),
        (main_run envFileOk env promptArg clientOk net).exitCode = 1
        ∧ (main_run envFileOk env promptArg clientOk net).networkCalled = false
        ∧ (main_run envFileOk env promptArg clientOk
            net).profileResolved = false)
    ∧ ∀ (envFileOk : Bool) (env : String → Option String) (clientOk : Bool)
        (net : NetResult) (p : String),
        (main_run envFileOk env promptArg clientOk net).sentPrompt = some p →
        p = pyStrip promptArg := by
  constructor
  · intro hsp envFileOk env clientOk net
    have hstrip : pyStrip promptArg = "" := by
      unfold pyStrip
      have h1 : promptArg.data.dropWhile pyIsSpace = [] := by
        rw [List.dropWhile_eq_nil_iff]
        intro x hx
        exact (List.all_eq_true.mp hsp) x hx
      rw [h1]
      rfl
    rw [main_run_early envFileOk env promptArg clientOk net
      (Or.inr (Or.inr hstrip))]
    exact ⟨rfl, rfl, rfl⟩
  · intro envFileOk env clientOk net p h
    unfold main_run at h
    cases envFileOk with
    | false => simp at h
    | true =>
      rcases hge : get_env_variables env with e | t
      · simp [hge] at h
      · obtain ⟨reg, mid, st⟩ := t
        by_cases hp : pyStrip promptArg = ""
        · simp [hge, hp] at h
        · rcases hfind : find_model_configuration mid with _ | cfg
          · simp [hge, hp, hfind] at h
          · cases clientOk with
            | false => simp [hge, hp, hfind] at h
            | true =>
              rcases hbic : buildInvokeConfig cfg (pyStrip promptArg) st
                  with _ | config
              · simp [hge, hp, hfind, hbic] at h
              · cases net with
                | fail =>
                  simp [hge, hp, hfind, hbic] at h
                  exact h.symm
                | ok body =>
                  rcases hjp : jsonParse body with _ | rb
                  · simp [hge, hp, hfind, hbic, hjp] at h
                    exact h.symm
                  · rcases hex : cfg.responseExtract rb with e2 | gen
                    · simp [hge, hp, hfind, hbic, hjp, hex] at h
                      exact h.symm
                    · by_cases ht : gen.pyTruthy = true
                      · simp [hge, hp, hfind, hbic, hjp, hex, ht] at h
                        exact h.symm
                      · simp [hge, hp, hfind, hbic, hjp, hex, ht] at h
                        exact h.symm

/-- Witness for C10 at the all-blank prompt `"   "` and at the prompt
`"  hi "` whose stripped form reaches the network call. -/
theorem claim_C10_witness :
    (main_run true sampleEnv "   " true NetResult.fail).exitCode = 1
    ∧ (main_run true sampleEnv "   " true NetResult.fail).networkCalled = false
    ∧ (main_run true sampleEnv "   " true NetResult.fail).profileResolved = false
    ∧ "hi" = pyStrip "  hi " := by
  have h1 := (claim_C10 "   ").1 (by decide) true sampleEnv true NetResult.fail
  exact ⟨h1.1, h1.2.1, h1.2.2,
    (claim_C10 "  hi ").2 true sampleEnv true NetResult.fail "hi" rfl⟩

/-- C1 counterexample: a run against an `amazon` model whose response body
decodes to `{}` extracts the empty generated text — the spec's
ResponseParseFailure with an empty generation — yet the process exits with
code 0, not 1. -/
theorem claim_C1_counterexample :
    (main_run true sampleEnv "hello" true
        (NetResult.ok "\x7b\x7d")).networkCalled = true
    ∧ jsonParse "\x7b\x7d" = some (Json.obj [])
    ∧ amazonConfig.responseExtract (Json.obj []) = .ok (Json.str "")
    ∧ (main_run true sampleEnv "hello" true
        (NetResult.ok "\x7b\x7d")).generation = none
    ∧ (main_run true sampleEnv "hello" true
        (NetResult.ok "\x7b\x7d")).exitCode = 0 :=
  ⟨rfl, rfl, rfl, rfl, rfl⟩

/-- C1 (amended): every run exits with code 0 or 1; it exits 1 on every
configuration, profile-resolution, client, network or response-decode
failure; but a decoded response whose extracted generation is empty or
missing is only logged — the run still exits 0.  Exit code 0 holds exactly
when the environment loads, configuration reading succeeds, the stripped
prompt is non-empty, a profile resolves, the client is created, the
network call returns a body that decodes as JSON, and the extractor
returns without raising. -/
theorem claim_C1 (envFileOk : Bool) (env : String → Option String)
    (promptArg : String) (clientOk : Bool) (net : NetResult) :
    ((main_run envFileOk env promptArg clientOk net).exitCode = 0
      ∨ (main_run envFileOk env promptArg clientOk net).exitCode = 1)
    ∧ ((main_run envFileOk env promptArg clientOk net).exitCode = 0 ↔
        envFileOk = true
        ∧ ∃ (reg mid : String) (st : List Json) (cfg : ModelConfig)
            (body : String) (rb gen : Json),
            get_env_variables env = .ok (reg, mid, st)
            ∧ pyStrip promptArg ≠ ""
            ∧ find_model_configuration mid = some cfg
            ∧ clientOk = true
            ∧ net = NetResult.ok body
            ∧ jsonParse body = some rb
            ∧ cfg.responseExtract rb = .ok gen) := by
  unfold main_run
  cases envFileOk with
  | false => simp
  | true =>
    rcases hge : get_env_variables env with e | t
    · simp [hge]
    · obtain ⟨reg, mid, st⟩ := t
      by_cases hp : pyStrip promptArg = ""
      · simp [hge, hp]
      · rcases hfind : find_model_configuration mid with _ | cfg
        · simp [hge, hp, hfind]
        · have hmem := List.mem_of_find?_eq_some hfind
          have hapi := api_type_invoke cfg hmem
          cases clientOk with
          | false => simp [hge, hp, hfind]
          | true =>
            have hbic : buildInvokeConfig cfg (pyStrip promptArg) st =
                some (cfg.config_builder (pyStrip promptArg) (some st)) := by
              unfold buildInvokeConfig
              rw [hapi]
              simp
            cases net with
            | fail => simp [hge, hp, hfind, hbic]
            | ok body =>
              rcases hjp : jsonParse body with _ | rb
              · simp [hge, hp, hfind, hbic, hjp]
              · rcases hex : cfg.responseExtract rb with e2 | gen
                · simp [hge, hp, hfind, hbic, hjp, hex]
                · by_cases ht : gen.pyTruthy = true
                  · simp [hge, hp, hfind, hbic, hjp, hex, ht]
                    exact ⟨reg, mid, ⟨rfl, rfl⟩, cfg, hfind, gen, hex⟩
                  · simp [hge, hp, hfind, hbic, hjp, hex, ht]
                    exact ⟨reg, mid, ⟨rfl, rfl⟩, cfg, hfind, gen, hex⟩

end Bedrock
